import Mathlib

/-!
Verification of the smart-farm anomaly-monitoring core against its code.

Shallow embedding of:
* `Backend/ml_module/preprocessing.py` — `SensorDataPreprocessor.create_windows`,
  `check_rapid_change`;
* `Backend/ml_module/anomaly_detector.py` — `IsolationForestDetector.predict`,
  `get_anomaly_scores`, `detect_with_confidence`, `_calculate_severity`, `save_model`;
* `Backend/ml_module/views.py` — the anomaly-event creation loop of
  `MLViewSet.detect` / `batch_detect` (severity mapping and reading linking);
* `Backend/ai_agent/rule_engine.py` — `AgriculturalRuleEngine.analyze_anomaly`
  and the four per-category analyzers, `_build_explanation`, `_calculate_confidence`;
* `Backend/ai_agent/agent_service.py` — `AgentService.process_anomaly`.

Modelling conventions: Python floats are modelled as exact rationals (every
operation the claims touch — comparison, `min`, `abs`, division by 0.5 —
is order-exact); Python exceptions are modelled with `Except PyError`;
the Django ORM is modelled by passing the fetched rows / the store state
explicitly.  Decimal string formatting (`"%.1f"` etc.) is abstracted to exact
rational rendering by `fmtQ`; no claim depends on the rendered digits, but the
`TypeError` Python raises when such a format meets `None` is modelled exactly
(`fmt1`).
-/

/-- Python exceptions that the embedded code can raise.  `valueError` carries
the message string; `typeError` models e.g. ordering comparisons with `None`
and `format(None, ".1f")`. -/
inductive PyError where
  | typeError : PyError
  | valueError : String → PyError
deriving Repr, DecidableEq

/-! ## Preprocessor (`ml_module/preprocessing.py`) -/

/-- `SensorDataPreprocessor.create_windows` (preprocessing.py 56-82):
unit-stride sliding windows; raises `ValueError` when there are fewer values
than `window_size`.  `values[i:i + window_size]` is `(values.drop i).take ws`. -/
def create_windows (ws : ℕ) (values : List ℚ) : Except PyError (List (List ℚ)) :=
  if values.length < ws then
    .error (.valueError ("Not enough data points. Need at least " ++ toString ws ++
      ", got " ++ toString values.length))
  else
    .ok ((List.range (values.length - ws + 1)).map (fun i => (values.drop i).take ws))

/-- The list `changes` built by `check_rapid_change` (preprocessing.py 149-153):
for each consecutive pair with a nonzero earlier value, the absolute percent
change `abs((values[i] - values[i-1]) / values[i-1]) * 100`; pairs whose
earlier value is `0` are skipped. -/
def percent_changes : List ℚ → List ℚ
  | [] => []
  | [_] => []
  | a :: b :: rest =>
      (if a ≠ 0 then [|(b - a) / a| * 100] else []) ++ percent_changes (b :: rest)

/-- `SensorDataPreprocessor.check_rapid_change` (preprocessing.py 133-161).
Returns `(max_change >= threshold_percent, max_change)`; `(False, 0.0)` when
fewer than two values or when every pair was skipped. -/
def check_rapid_change (values : List ℚ) (threshold_percent : ℚ) : Bool × ℚ :=
  if values.length < 2 then (false, 0)
  else
    match percent_changes values with
    | [] => (false, 0)
    | c :: cs =>
        let max_change := cs.foldl max c
        (decide (threshold_percent ≤ max_change), max_change)

/-! ## Novelty detector (`ml_module/anomaly_detector.py`) -/

/-- The fitted scikit-learn `IsolationForest` is treated as opaque row-wise
functions: `predRow` is `model.predict` on one row (1 = normal, -1 = anomaly),
`scoreRow` is `model.score_samples` on one row. -/
structure IFModel where
  predRow : List ℚ → ℤ
  scoreRow : List ℚ → ℚ

/-- `IsolationForestDetector` state: the wrapped model plus the
trained-or-untrained flag and training metadata. -/
structure Detector where
  model : IFModel
  is_trained : Bool
  training_data_size : ℕ
  training_date : Option String

/-- Message of the `ValueError` raised by scoring an untrained detector. -/
def notTrainedMsg : String := "Model not trained yet! Call train() first."

/-- `IsolationForestDetector.predict` (anomaly_detector.py 76-90). -/
def Detector.predict (d : Detector) (data : List (List ℚ)) : Except PyError (List ℤ) :=
  if d.is_trained then .ok (data.map d.model.predRow)
  else .error (.valueError notTrainedMsg)

/-- `IsolationForestDetector.get_anomaly_scores` (anomaly_detector.py 92-107). -/
def Detector.get_anomaly_scores (d : Detector) (data : List (List ℚ)) :
    Except PyError (List ℚ) :=
  if d.is_trained then .ok (data.map d.model.scoreRow)
  else .error (.valueError notTrainedMsg)

/-- The pickled `model_data` dict written by `save_model`
(anomaly_detector.py 173-178). -/
structure SavedModel where
  model : IFModel
  is_trained : Bool
  training_data_size : ℕ
  training_date : Option String

/-- `IsolationForestDetector.save_model` (anomaly_detector.py 163-183):
raises `ValueError` on an untrained detector, otherwise serializes the state. -/
def Detector.save_model (d : Detector) : Except PyError SavedModel :=
  if d.is_trained then
    .ok { model := d.model, is_trained := d.is_trained,
          training_data_size := d.training_data_size, training_date := d.training_date }
  else .error (.valueError "Cannot save untrained model")

/-- `IsolationForestDetector._calculate_severity` (anomaly_detector.py 139-161). -/
def calculate_severity (score : ℚ) (is_anomaly : Bool) : String :=
  if ¬ is_anomaly then "NORMAL"
  else if score < -0.4 then "CRITICAL"
  else if score < -0.3 then "HIGH"
  else if score < -0.2 then "MEDIUM"
  else "LOW"

/-- One element of the result list of `detect_with_confidence`. -/
structure DetectResult where
  index : ℕ
  is_anomaly : Bool
  anomaly_score : ℚ
  confidence : ℚ
  severity : String
deriving Repr, DecidableEq

/-- The body of the `for i, (pred, score) in enumerate(zip(...))` loop of
`detect_with_confidence` (anomaly_detector.py 117-134) for one row. -/
def row_result (min_confidence : ℚ) (i : ℕ) (pred : ℤ) (score : ℚ) : DetectResult :=
  let is_anomaly_iforest := pred == -1
  let confidence :=
    if is_anomaly_iforest then min 1 (|score| / 0.5)
    else if score > 0 then min 1 (score / 0.5) else 0
  let is_anomaly := is_anomaly_iforest && decide (min_confidence ≤ confidence)
  { index := i, is_anomaly := is_anomaly, anomaly_score := score,
    confidence := confidence, severity := calculate_severity score is_anomaly }

/-- The enumerate-zip loop of `detect_with_confidence`, carrying the running
index. -/
def detect_rows (min_confidence : ℚ) (i : ℕ) : List (ℤ × ℚ) → List DetectResult
  | [] => []
  | (pred, score) :: rest =>
      row_result min_confidence i pred score :: detect_rows min_confidence (i + 1) rest

/-- `IsolationForestDetector.detect_with_confidence`
(anomaly_detector.py 109-136); `min_confidence` defaults to `0.999` at the
call sites, kept as an explicit argument here. -/
def Detector.detect_with_confidence (d : Detector) (data : List (List ℚ))
    (min_confidence : ℚ) : Except PyError (List DetectResult) :=
  if ¬ d.is_trained then .error (.valueError notTrainedMsg)
  else do
    let raw_predictions ← d.predict data
    let scores ← d.get_anomaly_scores data
    .ok (detect_rows min_confidence 0 (raw_predictions.zip scores))

/-! ## Detection orchestrator (`ml_module/views.py`, event-creation loop) -/

/-- A stored `SensorReading` row as the detect endpoint sees it (id and scalar
value; the query returns them ordered newest-first, `order_by('-timestamp')`). -/
structure SensorReadingRec where
  rid : ℕ
  value : ℚ
deriving Repr, DecidableEq

/-- The `severity_map` dict literal of `MLViewSet.detect`
(views.py 293-298) and `batch_detect` (views.py 419-424). -/
def severity_map : List (String × String) :=
  [("NORMAL", "low"), ("MINOR", "low"), ("WARNING", "medium"), ("CRITICAL", "high")]

/-- `severity_map.get(anomaly['severity'], 'medium')` (views.py 299 / 425). -/
def map_severity (s : String) : String :=
  ((severity_map.lookup s).getD "medium")

/-- Reading lookup of views.py 287-290: `readings_list[window_index]` when in
range, else fall back to `readings_list[0]` (the most recent reading; `none`
models the IndexError on an empty list, unreachable behind the length-10
guard). -/
def link_reading (readings_list : List SensorReadingRec) (window_index : ℕ) :
    Option SensorReadingRec :=
  if window_index < readings_list.length then readings_list[window_index]?
  else readings_list[0]?

/-- The `AnomalyEvent.objects.create(...)` payload of views.py 302-308
(DB-assigned id and timestamp are not part of the creation payload). -/
structure NewAnomalyEvent where
  plot : ℕ
  sensor_reading : Option SensorReadingRec
  anomaly_type : String
  severity : String
  model_confidence : ℚ
deriving Repr, DecidableEq

/-- The event-creation loop of `MLViewSet.detect` (views.py 277-309, identical
in `batch_detect` 407-434): filter the detection results to the flagged ones,
then for each build an `AnomalyEvent` with `window_index = anomaly['index']`,
the reading linked by `link_reading`, and the mapped severity. -/
def create_anomaly_events (plot : ℕ) (sensor_type : String)
    (readings_list : List SensorReadingRec) (results : List DetectResult) :
    List NewAnomalyEvent :=
  (results.filter (fun r => r.is_anomaly)).map (fun anomaly =>
    { plot := plot
      sensor_reading := link_reading readings_list anomaly.index
      anomaly_type := sensor_type ++ "_anomaly"
      severity := map_severity anomaly.severity
      model_confidence := anomaly.confidence })

/-- Modelled from the spec (for refinement comparison only, not from the
source): the window-to-reading rule the spec states for `detect` — link window
`i` to the reading at trailing index `i + window_size - 1` of the oldest-first
(reversed) sequence, the claim C2 alignment rule. -/
def spec_trailing_link (readings_newest_first : List SensorReadingRec)
    (window_size i : ℕ) : Option SensorReadingRec :=
  (readings_newest_first.reverse)[i + window_size - 1]?

/-! ## Rule engine (`ai_agent/rule_engine.py`) -/

/-- An `AnomalyEvent` row as the rule engine and agent read it back from the
store: DB id, category name, 3-level storage severity, model confidence, and
the timestamp already rendered by `strftime("%Y-%m-%d at %H:%M")`. -/
structure AnomalyEvent where
  id : ℕ
  anomaly_type : String
  severity : String
  model_confidence : ℚ
  timestamp : String
deriving Repr, DecidableEq

/-- The context dict built by `_get_reading_context` (rule_engine.py 67-122):
every key is always present; `recent_value`, `change_rate` and
`historical_avg` may hold `None`.  Context construction itself queries the
store and is therefore taken as an input here. -/
structure RuleContext where
  recent_value : Option ℚ
  change_rate : Option ℚ
  trend : String
  multiple_anomalies : Bool
  sensor_type : Option String
  historical_avg : Option ℚ
deriving Repr, DecidableEq

/-- The dict returned by every rule branch. -/
structure RuleResult where
  recommended_action : String
  explanation_text : String
  confidence : ℚ
  priority : String
deriving Repr, DecidableEq

/-- Exact rational rendering standing in for Python float formatting
(`"%.1f"`, `"%.2f"`); no claim depends on the rendered digits. -/
def fmtQ (q : ℚ) : String := toString q

/-- Python `f"{x:.1f}"` where `x` may be `None`: formatting `None` raises
`TypeError` (`NoneType.__format__` rejects format specs). -/
def fmt1 (x : Option ℚ) : Except PyError String :=
  match x with
  | none => .error .typeError
  | some q => .ok (fmtQ q)

/-- Python `f"{x:+.1f}"` (sign-prefixed) on a number. -/
def fmtSigned (q : ℚ) : String :=
  if 0 ≤ q then "+" ++ fmtQ q else fmtQ q

/-- Python truthiness of an optional float guarding `x and x < t`
(rule_engine.py 320, 399, 415): `None` and `0.0` are falsy, so the comparison
is short-circuited away for them. -/
def pyAndLt (x : Option ℚ) (t : ℚ) : Bool :=
  match x with
  | none => false
  | some v => v != 0 && decide (v < t)

/-- Python `x and x > t` under the same truthiness rule. -/
def pyAndGt (x : Option ℚ) (t : ℚ) : Bool :=
  match x with
  | none => false
  | some v => v != 0 && decide (t < v)

/-- The `trend_desc` dict lookup of `_build_explanation`
(rule_engine.py 536-540), with the trend string itself as default. -/
def trend_desc (trend : String) : String :=
  if trend == "increasing" then "Values are rising"
  else if trend == "decreasing" then "Values are declining"
  else if trend == "fluctuating" then "Values are unstable"
  else trend

/-- `AgriculturalRuleEngine._build_explanation` (rule_engine.py 518-551):
fixed prefix, the rule-specific detail, then a trend clause (when trend is
truthy and not `unknown`), a change-rate clause (when change_rate is truthy
and its magnitude exceeds 5), and a multi-anomaly warning.  A `None`
`sensor_type` renders as the string `None`, exactly as a Python f-string does. -/
def build_explanation (anomaly : AnomalyEvent) (context : RuleContext)
    (detail : String) : String :=
  let sensor_type := match context.sensor_type with
    | none => "None"
    | some s => s
  let base := "On " ++ anomaly.timestamp ++ ", " ++ sensor_type ++
    " readings detected a " ++ anomaly.anomaly_type ++ " (ML model confidence: " ++
    fmtQ anomaly.model_confidence ++ ", severity: " ++ anomaly.severity ++ "). " ++ detail
  let withTrend :=
    if context.trend != "" && context.trend != "unknown" then
      base ++ " Trend: " ++ trend_desc context.trend ++ "."
    else base
  let withRate := match context.change_rate with
    | some cr =>
        if cr != 0 && decide (5 < |cr|) then
          withTrend ++ " Change rate: " ++ fmtSigned cr ++ "%."
        else withTrend
    | none => withTrend
  if context.multiple_anomalies then
    withRate ++ " Multiple anomalies detected - investigate for combined stress factors."
  else withRate

/-- Python `round(x, 2)` rounds half to even; exact integer rounding of a
rational, half-to-even. -/
def round_half_even (q : ℚ) : ℤ :=
  if q - ⌊q⌋ < 1 / 2 then ⌊q⌋
  else if 1 / 2 < q - ⌊q⌋ then ⌊q⌋ + 1
  else if ⌊q⌋ % 2 = 0 then ⌊q⌋ else ⌊q⌋ + 1

/-- `round(confidence, 2)`. -/
def round2 (q : ℚ) : ℚ := (round_half_even (q * 100) : ℚ) / 100

/-- `AgriculturalRuleEngine._calculate_confidence` (rule_engine.py 553-568). -/
def calculate_confidence (model_confidence change_rate : ℚ) : ℚ :=
  round2 (if 20 < |change_rate| then min (model_confidence + 0.2) 1
    else if 15 < |change_rate| then min (model_confidence + 0.15) 1
    else if 10 < |change_rate| then min (model_confidence + 0.1) 1
    else model_confidence)

/-- `AgriculturalRuleEngine._analyze_moisture_anomaly` (rule_engine.py
161-266).  Thresholds: critical_low 35, critical_high 80, normal range 45-75.
A `None` `change_rate` reaching the RULE 2 comparison `change_rate < -10`
raises `TypeError` (Python 3 rejects `None < int`). -/
def analyze_moisture_anomaly (anomaly : AnomalyEvent) (context : RuleContext) :
    Except PyError RuleResult :=
  let trend := context.trend
  let severity := anomaly.severity
  match context.recent_value with
  | none =>
      .ok { recommended_action := "Investigate moisture sensor - no recent data available"
            explanation_text := build_explanation anomaly context
              ("Moisture anomaly detected but sensor reading data is unavailable. " ++
               "Check sensor connectivity and verify data collection.")
            confidence := anomaly.model_confidence * 0.5
            priority := "medium" }
  | some recent_value =>
      if recent_value < 35 then
        .ok { recommended_action :=
                "URGENT: Immediate irrigation required - crops under severe drought stress"
              explanation_text := build_explanation anomaly context
                ("Soil moisture critically low at " ++ fmtQ recent_value ++
                 "% (normal range: 45-75%). Crops are experiencing severe drought " ++
                 "stress and may suffer permanent damage.")
              confidence := min (anomaly.model_confidence + 0.15) 1
              priority := "high" }
      else
        match context.change_rate with
        | none => .error .typeError
        | some change_rate =>
            if change_rate < -10 then
              .ok { recommended_action :=
                      "Check irrigation system immediately - possible failure or leak detected"
                    explanation_text := build_explanation anomaly context
                      ("Soil moisture dropped " ++ fmtQ |change_rate| ++
                       "% rapidly. This sudden decline indicates possible irrigation " ++
                       "system failure, pipe leak, or pump malfunction. " ++
                       "Current moisture level: " ++ fmtQ recent_value ++ "%.")
                    confidence := calculate_confidence anomaly.model_confidence change_rate
                    priority := if severity == "high" then "high" else "medium" }
            else if trend == "decreasing" && decide (change_rate < -5) then
              .ok { recommended_action :=
                      "Adjust irrigation schedule - gradual moisture loss detected"
                    explanation_text := build_explanation anomaly context
                      ("Gradual moisture decline detected (" ++ fmtQ change_rate ++
                       "% change over recent period). Current level: " ++
                       fmtQ recent_value ++ "%. " ++
                       "Consider increasing irrigation frequency or duration.")
                    confidence := anomaly.model_confidence
                    priority := "medium" }
            else if 80 < recent_value then
              .ok { recommended_action := "Reduce irrigation immediately - overwatering detected"
                    explanation_text := build_explanation anomaly context
                      ("Soil moisture excessive at " ++ fmtQ recent_value ++
                       "% (above 80%). Risk of root rot, fungal diseases, and oxygen " ++
                       "deprivation. Reduce watering and improve drainage.")
                    confidence := anomaly.model_confidence
                    priority := "medium" }
            else if severity == "medium" then
              .ok { recommended_action :=
                      "Monitor moisture levels closely and prepare irrigation adjustments"
                    explanation_text := build_explanation anomaly context
                      ("Moisture anomaly detected with medium severity. Current level: " ++
                       fmtQ recent_value ++ "%. Monitor situation and be ready to adjust " ++
                       "irrigation if condition worsens.")
                    confidence := anomaly.model_confidence
                    priority := "medium" }
            else
              .ok { recommended_action := "Monitor soil moisture levels"
                    explanation_text := build_explanation anomaly context
                      ("Moisture anomaly detected. Current level: " ++ fmtQ recent_value ++
                       "%. Continue monitoring for changes.")
                    confidence := anomaly.model_confidence * 0.8
                    priority := "low" }

/-- `AgriculturalRuleEngine._analyze_temperature_anomaly` (rule_engine.py
270-388).  Thresholds: critical_low 10, critical_high 32, normal range 18-28.
RULE 2 is guarded by truthiness (`recent_value and recent_value < 10`); a
`None` `change_rate` reaching the RULE 3 comparison raises `TypeError`. -/
def analyze_temperature_anomaly (anomaly : AnomalyEvent) (context : RuleContext) :
    Except PyError RuleResult :=
  let severity := anomaly.severity
  match context.recent_value with
  | none =>
      .ok { recommended_action := "Investigate temperature sensor - no recent data available"
            explanation_text := build_explanation anomaly context
              ("Temperature anomaly detected but sensor reading data is unavailable. " ++
               "Check sensor connectivity and verify data collection.")
            confidence := anomaly.model_confidence * 0.5
            priority := "medium" }
  | some recent_value =>
      if 32 < recent_value then
        let e0 := "Extreme temperature detected at " ++ fmtQ recent_value ++
          "°C (normal range: 18-28°C). "
        let e1 := match context.historical_avg with
          | some h =>
              if h ≠ 0 then
                e0 ++ "This is " ++ fmtQ (recent_value - h) ++
                  "°C above recent average (" ++ fmtQ h ++ "°C). "
              else e0
          | none => e0
        let e2 := if context.trend == "increasing" then
            e1 ++ "Temperature continues to rise, worsening heat stress conditions. "
          else e1
        let e3 := e2 ++ "Crops at high risk of heat stress, wilting, and reduced " ++
          "yields. Immediate action required to prevent permanent damage."
        .ok { recommended_action :=
                "URGENT: Heat stress mitigation - increase irrigation immediately and provide shade"
              explanation_text := build_explanation anomaly context e3
              confidence := min (anomaly.model_confidence + 0.15) 1
              priority := "high" }
      else if recent_value != 0 && decide (recent_value < 10) then
        .ok { recommended_action := "URGENT: Cold protection required - risk of frost damage"
              explanation_text := build_explanation anomaly context
                ("Low temperature detected at " ++ fmtQ recent_value ++
                 "°C. Risk of cold stress, frost damage, and potential crop loss. " ++
                 "Consider protective measures such as row covers, heaters, or frost " ++
                 "protection sprinklers.")
              confidence := min (anomaly.model_confidence + 0.15) 1
              priority := "high" }
      else
        match context.change_rate with
        | none => .error .typeError
        | some change_rate =>
            if 15 < change_rate then
              .ok { recommended_action :=
                      "Monitor crops closely - sudden temperature increase detected"
                    explanation_text := build_explanation anomaly context
                      ("Sudden temperature increase of " ++ fmtQ change_rate ++
                       "°C detected. Current temperature: " ++ fmtQ recent_value ++
                       "°C. Monitor crop response and increase irrigation if needed.")
                    confidence := anomaly.model_confidence
                    priority := if severity == "high" then "high" else "medium" }
            else if change_rate < -15 then
              .ok { recommended_action :=
                      "Monitor for cold stress - sudden temperature drop detected"
                    explanation_text := build_explanation anomaly context
                      ("Sudden temperature decrease of " ++ fmtQ |change_rate| ++
                       "°C detected. Current temperature: " ++ fmtQ recent_value ++
                       "°C. Monitor for signs of cold stress.")
                    confidence := anomaly.model_confidence
                    priority := "medium" }
            else if severity == "medium" then
              .ok { recommended_action := "Monitor temperature trends and crop response"
                    explanation_text := build_explanation anomaly context
                      ("Temperature anomaly detected at " ++ fmtQ recent_value ++
                       "°C. Continue monitoring for sustained deviations.")
                    confidence := anomaly.model_confidence
                    priority := "medium" }
            else
              .ok { recommended_action := "Monitor temperature levels"
                    explanation_text := build_explanation anomaly context
                      ("Temperature anomaly detected at " ++ fmtQ recent_value ++
                       "°C. Continue routine monitoring.")
                    confidence := anomaly.model_confidence * 0.8
                    priority := "low" }

/-- `AgriculturalRuleEngine._analyze_humidity_anomaly` (rule_engine.py
392-453).  Thresholds: critical_low 30, critical_high 85.  Unlike the
moisture/temperature analyzers there is no missing-data early return: rules 1
and 2 are merely truthiness-guarded, and the remaining branches format
`recent_value` with `"{recent_value:.1f}"`, which raises `TypeError` when it
is `None`. -/
def analyze_humidity_anomaly (anomaly : AnomalyEvent) (context : RuleContext) :
    Except PyError RuleResult :=
  let recent_value := context.recent_value
  let severity := anomaly.severity
  if pyAndLt recent_value 30 then
    (fmt1 recent_value).map (fun v =>
      { recommended_action :=
          "Increase humidity or irrigation - risk of plant stress from dry air"
        explanation_text := build_explanation anomaly context
          ("Very low humidity at " ++ v ++ "% (normal range: 45-75%). Dry conditions " ++
           "may cause increased transpiration, water stress, and leaf damage. " ++
           "Consider misting or increasing irrigation.")
        confidence := anomaly.model_confidence
        priority := if severity == "high" then "high" else "medium" })
  else if pyAndGt recent_value 85 then
    (fmt1 recent_value).map (fun v =>
      { recommended_action :=
          "Improve ventilation urgently - high humidity increases disease risk"
        explanation_text := build_explanation anomaly context
          ("High humidity at " ++ v ++ "% (above 85%). Elevated risk of fungal " ++
           "diseases, mold, and bacterial infections. Improve air circulation, " ++
           "reduce watering frequency if possible, and monitor for disease symptoms.")
        confidence := anomaly.model_confidence
        priority := if severity == "high" then "high" else "medium" })
  else if severity == "medium" then
    (fmt1 recent_value).map (fun v =>
      { recommended_action := "Monitor humidity levels and ventilation"
        explanation_text := build_explanation anomaly context
          ("Humidity anomaly detected at " ++ v ++ "%. Monitor for changes and " ++
           "ensure adequate ventilation.")
        confidence := anomaly.model_confidence
        priority := "medium" })
  else
    (fmt1 recent_value).map (fun v =>
      { recommended_action := "Monitor humidity levels"
        explanation_text := build_explanation anomaly context
          ("Humidity anomaly detected at " ++ v ++ "%. Continue routine monitoring.")
        confidence := anomaly.model_confidence * 0.8
        priority := "low" })

/-- `AgriculturalRuleEngine._analyze_generic_anomaly` (rule_engine.py 457-514). -/
def analyze_generic_anomaly (anomaly : AnomalyEvent) (context : RuleContext) :
    Except PyError RuleResult :=
  let severity := anomaly.severity
  if context.multiple_anomalies then
    .ok { recommended_action :=
            "URGENT: Comprehensive plot inspection - multiple stress factors detected"
          explanation_text := build_explanation anomaly context
            ("Multiple anomalies detected in short timeframe. This indicates combined " ++
             "stress factors affecting the plot. Conduct thorough inspection of " ++
             "irrigation, environmental conditions, and crop health.")
          confidence := anomaly.model_confidence * 0.9
          priority := "high" }
  else if anomaly.model_confidence < 0.6 then
    .ok { recommended_action :=
            "Verify with manual inspection - anomaly detected with moderate confidence"
          explanation_text := build_explanation anomaly context
            ("Anomaly detected with moderate confidence (" ++
             fmtQ anomaly.model_confidence ++ "). Manual inspection recommended to " ++
             "confirm sensor readings and identify any issues.")
          confidence := anomaly.model_confidence
          priority := "low" }
  else if severity == "high" then
    .ok { recommended_action := "Investigate anomaly urgently - high severity detected"
          explanation_text := build_explanation anomaly context
            "High severity anomaly detected. Immediate investigation recommended."
          confidence := anomaly.model_confidence
          priority := "high" }
  else
    .ok { recommended_action := "Investigate anomaly condition"
          explanation_text := build_explanation anomaly context
            ("Anomaly detected in sensor data. Further investigation recommended to " ++
             "identify cause.")
          confidence := anomaly.model_confidence
          priority := if severity == "medium" then "medium" else "low" }

/-- Char-list test: does the first list start with the second? -/
def chars_start_with : List Char → List Char → Bool
  | _, [] => true
  | [], _ :: _ => false
  | c :: cs, p :: ps => c == p && chars_start_with cs ps

/-- Char-list substring occurrence (at any position). -/
def chars_contain : List Char → List Char → Bool
  | [], pat => pat.isEmpty
  | c :: rest, pat => chars_start_with (c :: rest) pat || chars_contain rest pat

/-- Python `str.lower()`: lower-case every character. -/
def py_lower (s : String) : String := String.mk (s.data.map Char.toLower)

/-- Python substring test `pat in s`. -/
def pyIn (pat s : String) : Bool := chars_contain s.data pat.data

/-- `AgriculturalRuleEngine.analyze_anomaly` (rule_engine.py 38-65) minus the
context construction (a store query, supplied as the `context` argument):
dispatch by case-insensitive substring match on the category name,
`'moisture' in anomaly_event.anomaly_type.lower()` and so on. -/
def analyze_anomaly (anomaly : AnomalyEvent) (context : RuleContext) :
    Except PyError RuleResult :=
  if pyIn "moisture" (py_lower anomaly.anomaly_type) then
    analyze_moisture_anomaly anomaly context
  else if pyIn "temperature" (py_lower anomaly.anomaly_type) then
    analyze_temperature_anomaly anomaly context
  else if pyIn "humidity" (py_lower anomaly.anomaly_type) then
    analyze_humidity_anomaly anomaly context
  else
    analyze_generic_anomaly anomaly context

/-! ## Agent orchestration (`ai_agent/agent_service.py`) -/

/-- An `AgentRecommendation` row: DB id, the owning anomaly event (one-to-one),
and the persisted analysis fields (`priority` is not persisted). -/
structure Recommendation where
  id : ℕ
  anomaly_event : ℕ
  recommended_action : String
  explanation_text : String
  confidence : ℚ
deriving Repr, DecidableEq

/-- The recommendation table: existing rows plus the next DB-assigned id. -/
structure AgentStore where
  recs : List Recommendation
  next_id : ℕ
deriving Repr, DecidableEq

/-- `AgentService.process_anomaly` (agent_service.py 23-60).  The
`hasattr(anomaly_event, 'recommendation')` reverse one-to-one probe is a
lookup for an existing row owned by this event; on a hit the existing
recommendation is returned and nothing is written.  Otherwise the rule engine
runs (its context, built by `_get_reading_context` from the store, is the
`context` argument) and a new row is created transactionally; rule-engine
exceptions propagate. -/
def process_anomaly (st : AgentStore) (anomaly_event : AnomalyEvent)
    (context : RuleContext) : Except PyError (Recommendation × AgentStore) :=
  match st.recs.find? (fun r => r.anomaly_event == anomaly_event.id) with
  | some r => .ok (r, st)
  | none => do
      let analysis ← analyze_anomaly anomaly_event context
      let r : Recommendation :=
        { id := st.next_id
          anomaly_event := anomaly_event.id
          recommended_action := analysis.recommended_action
          explanation_text := analysis.explanation_text
          confidence := analysis.confidence }
      .ok (r, { recs := st.recs ++ [r], next_id := st.next_id + 1 })

/-! ## Concrete inputs used by witnesses and counterexamples -/

/-- A generic (non-moisture/temperature/humidity) anomaly event. -/
def aW : AnomalyEvent :=
  { id := 7, anomaly_type := "other_anomaly", severity := "low",
    model_confidence := 1, timestamp := "2025-01-01 at 10:00" }

/-- A context with no sensor data at all (fresh defaults of
`_get_reading_context`). -/
def ctxW : RuleContext :=
  { recent_value := none, change_rate := none, trend := "unknown",
    multiple_anomalies := false, sensor_type := none, historical_avg := none }

/-- A moisture anomaly event. -/
def aM : AnomalyEvent :=
  { id := 3, anomaly_type := "moisture_anomaly", severity := "high",
    model_confidence := 0.7, timestamp := "2025-01-01 at 10:00" }

/-- A moisture context with `recent_value = 30` and a steep drop rate (so the
drop rule would also match, exercising the precedence of the critical-low
rule). -/
def ctxM : RuleContext :=
  { recent_value := some 30, change_rate := some (-20), trend := "decreasing",
    multiple_anomalies := false, sensor_type := some "moisture",
    historical_avg := some 50 }

/-- An untrained detector. -/
def dU : Detector :=
  { model := { predRow := fun _ => 1, scoreRow := fun _ => 0 },
    is_trained := false, training_data_size := 0, training_date := none }

/-- A trained detector: flags a row iff its first entry is negative and
returns that entry as score. -/
def dT : Detector :=
  { model := { predRow := fun row => if row.headD 0 < 0 then -1 else 1,
               scoreRow := fun row => row.headD 0 },
    is_trained := true, training_data_size := 50, training_date := some "2025-01-01" }

/-- Three readings newest-first. -/
def readingsW : List SensorReadingRec := [⟨0, 50⟩, ⟨1, 51⟩, ⟨2, 52⟩]

/-- A flagged detection result at window index 1. -/
def flaggedW : DetectResult :=
  { index := 1, is_anomaly := true, anomaly_score := -0.5, confidence := 1,
    severity := "CRITICAL" }

/-- A result list with one unflagged and one flagged window. -/
def resultsW : List DetectResult :=
  [{ index := 0, is_anomaly := false, anomaly_score := 0, confidence := 0,
     severity := "NORMAL" }, flaggedW]

/-- Eleven readings newest-first (ids 0 = newest … 10 = oldest), enough for
one full window of the default `window_size = 10`. -/
def readings11 : List SensorReadingRec := (List.range 11).map (fun j => ⟨j, 50⟩)

/-- Membership in an `Except` success, used to state non-vacuity. -/
def exceptOk {ε α : Type} : Except ε α → Bool
  | .ok _ => true
  | .error _ => false

/-- A recommendation row already owned by event id 7 (the id of `aW`). -/
def recW : Recommendation :=
  { id := 0, anomaly_event := 7, recommended_action := "x",
    explanation_text := "y", confidence := 1 }

/-! ## C1 — severity mapping in the detect endpoints -/

/-- C1 counterexample: the claim says detector tier HIGH maps to storage
severity high and LOW maps to low, but the `severity_map` dict of
views.py 293-298 has keys NORMAL/MINOR/WARNING/CRITICAL only, so both HIGH
and LOW fall through to the `'medium'` default. -/
theorem map_severity_claim_counterexample :
    map_severity "HIGH" = "medium" ∧ map_severity "LOW" = "medium" ∧
    map_severity "HIGH" ≠ "high" ∧ map_severity "LOW" ≠ "low" := by
  refine ⟨rfl, rfl, ?_, ?_⟩ <;> decide

/-- C1 (amended): before an AnomalyEvent is created, the detect endpoints map
the detector severity tier through `severity_map` with NORMAL→low, MINOR→low,
WARNING→medium, CRITICAL→high, and every other tier string — including the
detector tiers HIGH, MEDIUM and LOW — defaulting to medium; and every created
event carries exactly this mapped severity. -/
theorem map_severity_characterization :
    (∀ s : String, map_severity s =
      if s = "NORMAL" then "low"
      else if s = "MINOR" then "low"
      else if s = "WARNING" then "medium"
      else if s = "CRITICAL" then "high"
      else "medium") ∧
    ∀ (plot : ℕ) (stype : String) (readings : List SensorReadingRec)
      (results : List DetectResult),
      (create_anomaly_events plot stype readings results).map (fun e => e.severity) =
        (results.filter (fun r => r.is_anomaly)).map (fun a => map_severity a.severity) := by
  constructor
  · intro s
    by_cases h : s = "NORMAL"
    · subst h; decide
    · by_cases h2 : s = "MINOR"
      · subst h2; decide
      · by_cases h3 : s = "WARNING"
        · subst h3; decide
        · by_cases h4 : s = "CRITICAL"
          · subst h4; decide
          · simp [map_severity, severity_map, List.lookup_cons, beq_false_of_ne h,
              beq_false_of_ne h2, beq_false_of_ne h3, beq_false_of_ne h4, h, h2, h3, h4]
  · intro plot stype readings results
    simp [create_anomaly_events, List.map_map]

/-! ## C8 — scoring an untrained detector fails -/

/-- C8: on an untrained detector, `predict`, `get_anomaly_scores` and
`save_model` all raise (`ValueError`, the NotTrainedError of the spec
taxonomy), for every input. -/
theorem untrained_detector_fails (d : Detector) (data : List (List ℚ))
    (h : d.is_trained = false) :
    d.predict data = .error (.valueError notTrainedMsg) ∧
    d.get_anomaly_scores data = .error (.valueError notTrainedMsg) ∧
    d.save_model = .error (.valueError "Cannot save untrained model") := by
  simp [Detector.predict, Detector.get_anomaly_scores, Detector.save_model, h]

/-- C8 witness: the untrained detector `dU` at a concrete input. -/
theorem untrained_detector_fails_witness :
    dU.is_trained = false ∧
    (dU.predict [[1]] = .error (.valueError notTrainedMsg) ∧
     dU.get_anomaly_scores [[1]] = .error (.valueError notTrainedMsg) ∧
     dU.save_model = .error (.valueError "Cannot save untrained model")) :=
  ⟨rfl, untrained_detector_fails dU [[1]] rfl⟩

/-! ## C6 — sliding-window creation -/

/-- C6: with `len(values) = window_size + k`, `create_windows` succeeds with
exactly `k+1` windows, window `i` being `values[i:i+window_size]`, each of
length `window_size`; with fewer values than `window_size` it fails
(`ValueError`, the InsufficientDataError of the spec taxonomy). -/
theorem create_windows_spec (ws k : ℕ) (values short : List ℚ)
    (hlen : values.length = ws + k) (hshort : short.length < ws) :
    (∃ w, create_windows ws values = .ok w ∧ w.length = k + 1 ∧
      (∀ i, i < k + 1 → w[i]? = some ((values.drop i).take ws)) ∧
      ∀ win ∈ w, win.length = ws) ∧
    ∃ msg, create_windows ws short = .error (.valueError msg) := by
  have hnot : ¬ (values.length < ws) := by omega
  constructor
  · refine ⟨(List.range (values.length - ws + 1)).map (fun i => (values.drop i).take ws),
      by simp [create_windows, hnot], ?_, ?_, ?_⟩
    · simp [hlen]
    · intro i hi
      have hr : (List.range (values.length - ws + 1))[i]? = some i := by
        rw [List.getElem?_eq_getElem (by simpa using by omega)]
        simp
      rw [List.getElem?_map, hr, Option.map_some']
    · intro win hwin
      simp only [List.mem_map, List.mem_range] at hwin
      obtain ⟨i, hi, rfl⟩ := hwin
      simp only [List.length_take, List.length_drop]
      omega
  · exact ⟨"Not enough data points. Need at least " ++ toString ws ++ ", got " ++
      toString short.length, by simp [create_windows, hshort]⟩

/-- C6 witness: window size 3 on five values (k = 2), and a two-value list for
the failure case. -/
theorem create_windows_spec_witness :
    ([10, 20, 30, 40, 50] : List ℚ).length = 3 + 2 ∧
    ([1, 2] : List ℚ).length < 3 ∧
    ((∃ w, create_windows 3 [10, 20, 30, 40, 50] = .ok w ∧ w.length = 2 + 1 ∧
      (∀ i, i < 2 + 1 → w[i]? = some ((([10, 20, 30, 40, 50] : List ℚ).drop i).take 3)) ∧
      ∀ win ∈ w, win.length = 3) ∧
    ∃ msg, create_windows 3 [1, 2] = .error (.valueError msg)) :=
  ⟨rfl, by decide, create_windows_spec 3 2 [10, 20, 30, 40, 50] [1, 2] rfl (by decide)⟩

/-! ## C7 — rapid-change scan -/

/-- The seed of a max-fold is a lower bound of its result. -/
theorem foldl_max_ge_init (cs : List ℚ) : ∀ c : ℚ, c ≤ cs.foldl max c := by
  induction cs with
  | nil => intro c; simp
  | cons b t ih =>
      intro c
      simpa using le_trans (le_max_left c b) (ih (max c b))

/-- Every list element is below the max-fold of the list. -/
theorem foldl_max_ge_mem (cs : List ℚ) : ∀ c x, x ∈ cs → x ≤ cs.foldl max c := by
  induction cs with
  | nil => intro c x hx; cases hx
  | cons b t ih =>
      intro c x hx
      rcases List.mem_cons.mp hx with rfl | hx
      · simpa using le_trans (le_max_right c x) (foldl_max_ge_init t (max c x))
      · simpa using ih (max c b) x hx

/-- A max-fold returns its seed or a list element. -/
theorem foldl_max_mem_or (cs : List ℚ) :
    ∀ c, cs.foldl max c = c ∨ cs.foldl max c ∈ cs := by
  induction cs with
  | nil => intro c; left; rfl
  | cons b t ih =>
      intro c
      rcases ih (max c b) with h | h
      · rcases max_choice c b with hm | hm
        · left; simpa [hm] using h
        · right; rw [List.foldl_cons, h, hm]; exact List.mem_cons_self b t
      · right; exact List.mem_cons_of_mem b (by simpa using h)

/-- Fewer than two values yield no percent-change pairs. -/
theorem percent_changes_short (values : List ℚ) (h : values.length < 2) :
    percent_changes values = [] := by
  match values with
  | [] => rfl
  | [_] => rfl
  | _ :: _ :: _ => simp at h; omega

/-- C7 counterexample: at `[100, 80]` with threshold 20 the only percent
change is exactly 20, so no pair strictly exceeds the threshold, yet the code
(which tests `max_change >= threshold_percent`) reports a rapid change. -/
theorem check_rapid_change_claim_counterexample :
    (check_rapid_change [100, 80] 20).1 = true ∧
    ∀ c ∈ percent_changes [100, 80], ¬ (20 < c) := by
  constructor
  · norm_num [check_rapid_change, percent_changes, abs_of_nonneg]
  · norm_num [percent_changes, abs_of_nonneg]

/-- C7 (amended): `check_rapid_change` scans consecutive pairs, computes the
percent-change magnitude of each pair (skipping pairs whose earlier value is
0, collected in `percent_changes`), and returns `(b, m)` where `m` bounds
every observed magnitude and is itself one of them (or 0 when there are
none), and `b` is true exactly when some observed magnitude is at least
(`>=`, not strictly above) the threshold; in particular
`check_rapid_change [100, 100, 70, 70, 70] 20 = (True, 30.0)`. -/
theorem check_rapid_change_spec (values : List ℚ) (t : ℚ) :
    ((check_rapid_change values t).1 = true ↔ ∃ c ∈ percent_changes values, t ≤ c) ∧
    (∀ c ∈ percent_changes values, c ≤ (check_rapid_change values t).2) ∧
    ((check_rapid_change values t).2 ∈ percent_changes values ∨
      (percent_changes values = [] ∧ (check_rapid_change values t).2 = 0)) ∧
    check_rapid_change [100, 100, 70, 70, 70] 20 = (true, 30) := by
  refine ⟨?_, ?_, ?_,
    by norm_num [check_rapid_change, percent_changes, abs_of_nonneg]⟩ <;>
  · by_cases hl : values.length < 2
    · simp [check_rapid_change, hl, percent_changes_short values hl]
    · rcases hpc : percent_changes values with _ | ⟨c, cs⟩
      · simp [check_rapid_change, hl, hpc]
      · simp only [check_rapid_change, hl, if_false, hpc]
        first
        | -- the iff between the boolean and the existential
          constructor
          · intro hb
            have hle : t ≤ cs.foldl max c := by simpa using hb
            rcases foldl_max_mem_or cs c with h | h
            · exact ⟨c, List.mem_cons_self c cs, by simpa [h] using hle⟩
            · exact ⟨cs.foldl max c, List.mem_cons_of_mem c h, hle⟩
          · rintro ⟨x, hx, htx⟩
            have hxm : x ≤ cs.foldl max c := by
              rcases List.mem_cons.mp hx with rfl | hx
              · exact foldl_max_ge_init cs x
              · exact foldl_max_ge_mem cs c x hx
            simpa using le_trans htx hxm
        | -- every observed change is bounded by the returned maximum
          intro x hx
          rcases List.mem_cons.mp hx with rfl | hx
          · exact foldl_max_ge_init cs x
          · exact foldl_max_ge_mem cs c x hx
        | -- the returned maximum is an observed change
          left
          rcases foldl_max_mem_or cs c with h | h
          · rw [h]; exact List.mem_cons_self c cs
          · exact List.mem_cons_of_mem c h

/-! ## C5 — moisture critical-low rule precedence -/

/-- C5: for every moisture anomaly whose context has `recent_value = 30`
(below the critical-low threshold 35), the rule engine returns the
urgent-irrigation branch with priority high and confidence
`min(model_confidence + 0.15, 1)`, whatever `change_rate` (and the rest of
the context and event) holds, because the critical-low rule precedes the
sudden-drop rule. -/
theorem moisture_critical_low_precedence (a : AnomalyEvent) (ctx : RuleContext)
    (hrv : ctx.recent_value = some 30)
    (hdisp : pyIn "moisture" (py_lower a.anomaly_type) = true) :
    ∃ r, analyze_anomaly a ctx = .ok r ∧
      r.recommended_action =
        "URGENT: Immediate irrigation required - crops under severe drought stress" ∧
      r.priority = "high" ∧
      r.confidence = min (a.model_confidence + 0.15) 1 := by
  simp only [analyze_anomaly, hdisp, if_true]
  simp only [analyze_moisture_anomaly, hrv]
  norm_num

/-- C5 witness: the moisture event `aM` with context `ctxM`, whose
`change_rate = -20` also satisfies the sudden-drop condition. -/
theorem moisture_critical_low_precedence_witness :
    ctxM.recent_value = some 30 ∧
    pyIn "moisture" (py_lower aM.anomaly_type) = true ∧
    ctxM.change_rate = some (-20) ∧
    (∃ r, analyze_anomaly aM ctxM = .ok r ∧
      r.recommended_action =
        "URGENT: Immediate irrigation required - crops under severe drought stress" ∧
      r.priority = "high" ∧
      r.confidence = min (aM.model_confidence + 0.15) 1) :=
  ⟨rfl, by decide, rfl, moisture_critical_low_precedence aM ctxM rfl (by decide)⟩

/-! ## C10 — humidity rules are not total on missing sensor data -/

/-- C10: for a humidity anomaly whose context `recent_value` is `None`, the
first two humidity rules are skipped by their truthiness guards and both
remaining branches (severity medium and default) raise `TypeError` when
formatting `recent_value`; the moisture and temperature analyzers instead
return their investigate-sensor result on the same missing data. -/
theorem humidity_missing_value_typeerror (a : AnomalyEvent) (ctx : RuleContext)
    (h : ctx.recent_value = none) :
    analyze_humidity_anomaly a ctx = .error .typeError ∧
    (∃ r, analyze_moisture_anomaly a ctx = .ok r ∧
      r.recommended_action = "Investigate moisture sensor - no recent data available") ∧
    (∃ r, analyze_temperature_anomaly a ctx = .ok r ∧
      r.recommended_action = "Investigate temperature sensor - no recent data available") := by
  refine ⟨?_, ?_, ?_⟩
  · simp [analyze_humidity_anomaly, h, pyAndLt, pyAndGt, fmt1, Except.map]
  · simp only [analyze_moisture_anomaly, h]
    exact ⟨_, rfl, rfl⟩
  · simp only [analyze_temperature_anomaly, h]
    exact ⟨_, rfl, rfl⟩

/-- C10 witness: the no-data context `ctxW` (its `recent_value` is `None`). -/
theorem humidity_missing_value_typeerror_witness :
    ctxW.recent_value = none ∧
    (analyze_humidity_anomaly aW ctxW = .error .typeError ∧
    (∃ r, analyze_moisture_anomaly aW ctxW = .ok r ∧
      r.recommended_action = "Investigate moisture sensor - no recent data available") ∧
    (∃ r, analyze_temperature_anomaly aW ctxW = .ok r ∧
      r.recommended_action = "Investigate temperature sensor - no recent data available")) :=
  ⟨rfl, humidity_missing_value_typeerror aW ctxW rfl⟩

/-! ## C2 — which reading a flagged window links to -/

/-- C2 counterexample: with eleven readings (ids 0 = newest … 10 = oldest)
and one flagged window at index 0, `MLViewSet.detect` links the created event
to `readings_list[0]` — reading id 0, the newest — whereas the claimed rule
(trailing index `i + window_size - 1` of the oldest-first reversed sequence,
here index 9 of the reversal) names reading id 1.  The code also never
reverses the fetched newest-first order. -/
theorem detect_link_claim_counterexample :
    (create_anomaly_events 1 "moisture" readings11
        [{ index := 0, is_anomaly := true, anomaly_score := -0.5, confidence := 1,
           severity := "CRITICAL" }]).map (fun e => e.sensor_reading) =
      [some ⟨0, 50⟩] ∧
    spec_trailing_link readings11 10 0 = some ⟨1, 50⟩ ∧
    (⟨0, 50⟩ : SensorReadingRec) ≠ ⟨1, 50⟩ := by
  refine ⟨rfl, rfl, ?_⟩
  decide

/-- C2 (amended): `MLViewSet.detect` fetches the most recent 50 readings for
the (plot, sensor type) pair ordered newest-first (no reversal is applied),
and links the event created for flagged window `i` to the reading at index
`i` of that newest-first list, falling back to the most recent reading
(index 0) when the index is out of range. -/
theorem detect_links_window_index (plot : ℕ) (stype : String)
    (readings : List SensorReadingRec) (results : List DetectResult)
    (i : ℕ) (a : DetectResult)
    (h : (results.filter (fun r => r.is_anomaly))[i]? = some a) :
    ∃ e, (create_anomaly_events plot stype readings results)[i]? = some e ∧
      e.sensor_reading =
        (if a.index < readings.length then readings[a.index]? else readings[0]?) ∧
      (a.index < readings.length → e.sensor_reading = readings[a.index]?) ∧
      (readings.length ≤ a.index → e.sensor_reading = readings[0]?) := by
  refine ⟨{ plot := plot, sensor_reading := link_reading readings a.index,
            anomaly_type := stype ++ "_anomaly", severity := map_severity a.severity,
            model_confidence := a.confidence }, ?_, ?_, ?_, ?_⟩
  · simp [create_anomaly_events, List.getElem?_map, h]
  · simp [link_reading]
  · intro hlt; simp [link_reading, hlt]
  · intro hge; simp [link_reading, Nat.not_lt.mpr hge]

/-- C2 witness: three readings, the flagged window at index 1 (the in-range
case), instantiated at filter position 0. -/
theorem detect_links_window_index_witness :
    (resultsW.filter (fun r => r.is_anomaly))[0]? = some flaggedW ∧
    (∃ e, (create_anomaly_events 1 "moisture" readingsW resultsW)[0]? = some e ∧
      e.sensor_reading =
        (if flaggedW.index < readingsW.length
         then readingsW[flaggedW.index]? else readingsW[0]?) ∧
      (flaggedW.index < readingsW.length →
        e.sensor_reading = readingsW[flaggedW.index]?) ∧
      (readingsW.length ≤ flaggedW.index → e.sensor_reading = readingsW[0]?)) :=
  ⟨rfl, detect_links_window_index 1 "moisture" readingsW resultsW 0 flaggedW rfl⟩

/-! ## C3 — per-row confidence, two-stage gate, severity tiers -/

/-- Length of the enumerate-zip loop output. -/
theorem detect_rows_length (c : ℚ) : ∀ (l : List (ℤ × ℚ)) (n : ℕ),
    (detect_rows c n l).length = l.length := by
  intro l
  induction l with
  | nil => intro n; rfl
  | cons p t ih => intro n; simp [detect_rows, ih]

/-- Indexing the enumerate-zip loop output. -/
theorem detect_rows_getElem (c : ℚ) : ∀ (l : List (ℤ × ℚ)) (n k : ℕ),
    (detect_rows c n l)[k]? = l[k]?.map (fun p => row_result c (n + k) p.1 p.2) := by
  intro l
  induction l with
  | nil => intro n k; simp [detect_rows]
  | cons p t ih =>
      intro n k
      cases k with
      | zero => simp [detect_rows]
      | succ k =>
          simp only [detect_rows, List.getElem?_cons_succ, ih (n + 1) k]
          rw [Nat.add_assoc, Nat.add_comm 1 k]

/-- Derived confidence of one row: `min(1, |score|/0.5)` when the binary
label flags it, else `min(1, score/0.5)` for positive score, else 0. -/
theorem row_result_confidence (c : ℚ) (i : ℕ) (pred : ℤ) (score : ℚ) :
    (row_result c i pred score).confidence =
      (if pred = -1 then min 1 (|score| / 0.5)
       else if 0 < score then min 1 (score / 0.5) else 0) := by
  simp only [row_result]
  by_cases hp : pred = -1
  · simp [hp]
  · simp [hp, beq_false_of_ne hp]

/-- Final classification of one row: binary label AND confidence gate. -/
theorem row_result_is_anomaly (c : ℚ) (i : ℕ) (pred : ℤ) (score : ℚ) :
    ((row_result c i pred score).is_anomaly = true ↔
      (pred = -1 ∧ c ≤ (row_result c i pred score).confidence)) := by
  simp [row_result, Bool.and_eq_true, decide_eq_true_eq, beq_iff_eq]

/-- `_calculate_severity` by cases on the final flag. -/
theorem calculate_severity_cases (score : ℚ) (b : Bool) :
    calculate_severity score b =
      (if b = false then "NORMAL"
       else if score < -0.4 then "CRITICAL" else if score < -0.3 then "HIGH"
       else if score < -0.2 then "MEDIUM" else "LOW") := by
  cases b <;> simp [calculate_severity]

/-- Severity of one row is cut from the raw score, NORMAL when not finally
anomalous. -/
theorem row_result_severity (c : ℚ) (i : ℕ) (pred : ℤ) (score : ℚ) :
    (row_result c i pred score).severity =
      (if (row_result c i pred score).is_anomaly = false then "NORMAL"
       else if score < -0.4 then "CRITICAL"
       else if score < -0.3 then "HIGH"
       else if score < -0.2 then "MEDIUM" else "LOW") := by
  simp only [row_result]
  exact calculate_severity_cases _ _

/-- C3: on a trained detector, `detect_with_confidence` yields one result per
input row where confidence is `min(1, |score|/0.5)` when the binary label
flags the row, else `min(1, score/0.5)` if score is positive, else 0; the row
is finally anomalous iff the binary label flags it AND confidence reaches
`min_confidence`; and severity comes from the raw score cut points -0.4, -0.3
and -0.2 when finally anomalous, NORMAL otherwise. -/
theorem detect_with_confidence_spec (d : Detector) (data : List (List ℚ))
    (min_confidence : ℚ) (ht : d.is_trained = true) :
    ∃ results : List DetectResult,
      d.detect_with_confidence data min_confidence = .ok results ∧
      results.length = data.length ∧
      ∀ i : ℕ, ∀ row : List ℚ, data[i]? = some row →
        ∃ r : DetectResult, results[i]? = some r ∧
          r.confidence =
            (if d.model.predRow row = -1 then min 1 (|d.model.scoreRow row| / 0.5)
             else if 0 < d.model.scoreRow row then min 1 (d.model.scoreRow row / 0.5)
             else 0) ∧
          (r.is_anomaly = true ↔
            (d.model.predRow row = -1 ∧ min_confidence ≤ r.confidence)) ∧
          r.severity = (if r.is_anomaly = false then "NORMAL"
            else if d.model.scoreRow row < -0.4 then "CRITICAL"
            else if d.model.scoreRow row < -0.3 then "HIGH"
            else if d.model.scoreRow row < -0.2 then "MEDIUM" else "LOW") := by
  refine ⟨detect_rows min_confidence 0
      ((data.map d.model.predRow).zip (data.map d.model.scoreRow)), ?_, ?_, ?_⟩
  · simp [Detector.detect_with_confidence, Detector.predict,
      Detector.get_anomaly_scores, ht, Bind.bind, Except.bind]
  · rw [detect_rows_length, List.zip_map']
    simp
  · intro i row hrow
    rw [detect_rows_getElem, List.zip_map', List.getElem?_map, hrow]
    simp only [Option.map_some']
    exact ⟨_, rfl, row_result_confidence _ _ _ _, row_result_is_anomaly _ _ _ _,
      row_result_severity _ _ _ _⟩

/-- C3 witness: the trained detector `dT` on a flagged and an unflagged row. -/
theorem detect_with_confidence_spec_witness :
    dT.is_trained = true ∧
    (∃ results : List DetectResult,
      dT.detect_with_confidence [[-1], [1]] 0.999 = .ok results ∧
      results.length = ([[-1], [1]] : List (List ℚ)).length ∧
      ∀ i : ℕ, ∀ row : List ℚ, ([[-1], [1]] : List (List ℚ))[i]? = some row →
        ∃ r : DetectResult, results[i]? = some r ∧
          r.confidence =
            (if dT.model.predRow row = -1 then min 1 (|dT.model.scoreRow row| / 0.5)
             else if 0 < dT.model.scoreRow row then min 1 (dT.model.scoreRow row / 0.5)
             else 0) ∧
          (r.is_anomaly = true ↔
            (dT.model.predRow row = -1 ∧ 0.999 ≤ r.confidence)) ∧
          r.severity = (if r.is_anomaly = false then "NORMAL"
            else if dT.model.scoreRow row < -0.4 then "CRITICAL"
            else if dT.model.scoreRow row < -0.3 then "HIGH"
            else if dT.model.scoreRow row < -0.2 then "MEDIUM" else "LOW")) :=
  ⟨rfl, detect_with_confidence_spec dT [[-1], [1]] 0.999 rfl⟩

/-! ## C4 — idempotent recommendation creation -/

/-- C4: `process_anomaly` is idempotent.  Whenever a call succeeds with
recommendation `r` and store `st'`, calling it again on the same
AnomalyEvent (with any context) returns the very same `r` — same id — and
leaves the store unchanged, so no second Recommendation is created; and a
store holding at most one Recommendation for the event still holds at most
one afterwards. -/
theorem process_anomaly_idempotent (st : AgentStore) (ev : AnomalyEvent)
    (ctx ctx2 : RuleContext) :
    match process_anomaly st ev ctx with
    | .ok (r, st') =>
        process_anomaly st' ev ctx2 = .ok (r, st') ∧
        (st.recs.countP (fun x => x.anomaly_event == ev.id) ≤ 1 →
          st'.recs.countP (fun x => x.anomaly_event == ev.id) ≤ 1)
    | .error _ => True := by
  unfold process_anomaly
  cases hfind : st.recs.find? (fun r => r.anomaly_event == ev.id) with
  | some r =>
      simp only [hfind]
      exact ⟨trivial, fun h => h⟩
  | none =>
      cases hana : analyze_anomaly ev ctx with
      | error e => simp [hfind, hana, Bind.bind, Except.bind]
      | ok analysis =>
          simp only [hfind, hana, Bind.bind, Except.bind]
          constructor
          · simp only [List.find?_append, hfind]
            simp [List.find?_cons]
          · intro hcount
            have h0 : st.recs.countP (fun x => x.anomaly_event == ev.id) = 0 := by
              rw [List.countP_eq_zero]
              intro a ha
              exact List.find?_eq_none.mp hfind a ha
            simp [List.countP_append, h0, List.countP_cons]

/-- `process_anomaly` does succeed on a store that already owns a
recommendation for the event, returning the existing row: the successful
branch of the idempotence statement is inhabited. -/
theorem process_anomaly_succeeds_on_existing :
    exceptOk (process_anomaly ⟨[recW], 1⟩ aW ctxW) = true := rfl

/-! ## C9 — rule-engine confidence stays in the unit interval -/

/-- Half-to-even rounding never goes below the floor. -/
theorem floor_le_rhe (q : ℚ) : ⌊q⌋ ≤ round_half_even q := by
  unfold round_half_even
  split_ifs <;> omega

/-- Half-to-even rounding never goes above the ceiling. -/
theorem rhe_le_ceil (q : ℚ) : round_half_even q ≤ ⌈q⌉ := by
  unfold round_half_even
  split_ifs with h1 h2 h3
  · exact Int.floor_le_ceil q
  · have hq : (⌊q⌋ : ℚ) < q := by linarith
    have := Int.lt_ceil.mpr hq
    omega
  · exact Int.floor_le_ceil q
  · have hq : (⌊q⌋ : ℚ) < q := by
      have := not_lt.mp h1
      linarith
    have := Int.lt_ceil.mpr hq
    omega

/-- Rounding to two decimals keeps the unit interval. -/
theorem round2_mem_unit {q : ℚ} (h0 : 0 ≤ q) (h1 : q ≤ 1) :
    0 ≤ round2 q ∧ round2 q ≤ 1 := by
  unfold round2
  constructor
  · apply div_nonneg _ (by norm_num)
    have hf : (0 : ℤ) ≤ ⌊q * 100⌋ := Int.floor_nonneg.mpr (by positivity)
    have hle := floor_le_rhe (q * 100)
    exact_mod_cast le_trans hf hle
  · rw [div_le_one (by norm_num)]
    have hc : ⌈q * 100⌉ ≤ 100 := by
      apply Int.ceil_le.mpr
      push_cast
      linarith
    have hle := rhe_le_ceil (q * 100)
    exact_mod_cast le_trans hle hc

/-- `_calculate_confidence` maps a unit-interval model confidence back into
the unit interval, for every change rate. -/
theorem calculate_confidence_unit (mc cr : ℚ) (h0 : 0 ≤ mc) (h1 : mc ≤ 1) :
    0 ≤ calculate_confidence mc cr ∧ calculate_confidence mc cr ≤ 1 := by
  unfold calculate_confidence
  refine round2_mem_unit ?_ ?_ <;> split_ifs <;>
    first
      | exact le_min (by linarith) (by norm_num)
      | exact min_le_right _ _
      | linarith

/-- Every successful moisture branch yields a unit-interval confidence. -/
theorem moisture_confidence_unit (a : AnomalyEvent) (ctx : RuleContext)
    (h0 : 0 ≤ a.model_confidence) (h1 : a.model_confidence ≤ 1) :
    ∀ r, analyze_moisture_anomaly a ctx = .ok r →
      0 ≤ r.confidence ∧ r.confidence ≤ 1 := by
  intro r h
  rcases hrv : ctx.recent_value with _ | rv <;>
    simp only [analyze_moisture_anomaly, hrv] at h
  · cases h
    constructor <;> simp only [] <;> linarith
  · rcases hcr : ctx.change_rate with _ | cr <;> simp only [hcr] at h
    · split at h
      · cases h
        exact ⟨le_min (by linarith) (by norm_num), min_le_right _ _⟩
      · cases h
    · split at h
      · cases h
        exact ⟨le_min (by linarith) (by norm_num), min_le_right _ _⟩
      · split at h
        · cases h
          exact calculate_confidence_unit _ _ h0 h1
        · split at h
          · cases h
            exact ⟨h0, h1⟩
          · split at h
            · cases h
              exact ⟨h0, h1⟩
            · split at h
              · cases h
                exact ⟨h0, h1⟩
              · cases h
                constructor <;> simp only [] <;> linarith

/-- Every successful temperature branch yields a unit-interval confidence. -/
theorem temperature_confidence_unit (a : AnomalyEvent) (ctx : RuleContext)
    (h0 : 0 ≤ a.model_confidence) (h1 : a.model_confidence ≤ 1) :
    ∀ r, analyze_temperature_anomaly a ctx = .ok r →
      0 ≤ r.confidence ∧ r.confidence ≤ 1 := by
  intro r h
  rcases hrv : ctx.recent_value with _ | rv <;>
    simp only [analyze_temperature_anomaly, hrv] at h
  · cases h
    constructor <;> simp only [] <;> linarith
  · rcases hcr : ctx.change_rate with _ | cr <;> simp only [hcr] at h
    · split at h
      · cases h
        exact ⟨le_min (by linarith) (by norm_num), min_le_right _ _⟩
      · split at h
        · cases h
          exact ⟨le_min (by linarith) (by norm_num), min_le_right _ _⟩
        · cases h
    · split at h
      · cases h
        exact ⟨le_min (by linarith) (by norm_num), min_le_right _ _⟩
      · split at h
        · cases h
          exact ⟨le_min (by linarith) (by norm_num), min_le_right _ _⟩
        · split at h
          · cases h
            exact ⟨h0, h1⟩
          · split at h
            · cases h
              exact ⟨h0, h1⟩
            · split at h
              · cases h
                exact ⟨h0, h1⟩
              · cases h
                constructor <;> simp only [] <;> linarith

/-- Every successful humidity branch yields a unit-interval confidence. -/
theorem humidity_confidence_unit (a : AnomalyEvent) (ctx : RuleContext)
    (h0 : 0 ≤ a.model_confidence) (h1 : a.model_confidence ≤ 1) :
    ∀ r, analyze_humidity_anomaly a ctx = .ok r →
      0 ≤ r.confidence ∧ r.confidence ≤ 1 := by
  intro r h
  rcases hrv : ctx.recent_value with _ | rv
  · have he : analyze_humidity_anomaly a ctx = .error .typeError := by
      simp [analyze_humidity_anomaly, hrv, pyAndLt, pyAndGt, fmt1, Except.map]
    rw [he] at h
    cases h
  · simp only [analyze_humidity_anomaly, hrv, pyAndLt, pyAndGt, fmt1,
      Except.map] at h
    split at h
    · cases h
      exact ⟨h0, h1⟩
    · split at h
      · cases h
        exact ⟨h0, h1⟩
      · split at h
        · cases h
          exact ⟨h0, h1⟩
        · cases h
          constructor <;> simp only [] <;> linarith

/-- Every successful generic branch yields a unit-interval confidence. -/
theorem generic_confidence_unit (a : AnomalyEvent) (ctx : RuleContext)
    (h0 : 0 ≤ a.model_confidence) (h1 : a.model_confidence ≤ 1) :
    ∀ r, analyze_generic_anomaly a ctx = .ok r →
      0 ≤ r.confidence ∧ r.confidence ≤ 1 := by
  intro r h
  simp only [analyze_generic_anomaly] at h
  split at h
  · cases h
    constructor <;> simp only [] <;> linarith
  · split at h
    · cases h
      exact ⟨h0, h1⟩
    · split at h
      · cases h
        exact ⟨h0, h1⟩
      · cases h
        exact ⟨h0, h1⟩

/-- C9: for every anomaly event with model confidence in [0,1] and every
context, whenever `analyze_anomaly` returns a result (through any branch of
the moisture, temperature, humidity or generic rule sets, including the
`_calculate_confidence` boost), its confidence lies in [0,1]. -/
theorem rule_engine_confidence_unit (a : AnomalyEvent) (ctx : RuleContext)
    (h0 : 0 ≤ a.model_confidence) (h1 : a.model_confidence ≤ 1) :
    match analyze_anomaly a ctx with
    | .ok r => 0 ≤ r.confidence ∧ r.confidence ≤ 1
    | .error _ => True := by
  unfold analyze_anomaly
  split_ifs with hm ht hh
  · rcases hres : analyze_moisture_anomaly a ctx with e | r <;> simp only [hres]
    exact moisture_confidence_unit a ctx h0 h1 r hres
  · rcases hres : analyze_temperature_anomaly a ctx with e | r <;> simp only [hres]
    exact temperature_confidence_unit a ctx h0 h1 r hres
  · rcases hres : analyze_humidity_anomaly a ctx with e | r <;> simp only [hres]
    exact humidity_confidence_unit a ctx h0 h1 r hres
  · rcases hres : analyze_generic_anomaly a ctx with e | r <;> simp only [hres]
    exact generic_confidence_unit a ctx h0 h1 r hres

/-- C9 witness: the generic event `aW` (model confidence 1) in the empty
context `ctxW`. -/
theorem rule_engine_confidence_unit_witness :
    0 ≤ aW.model_confidence ∧ aW.model_confidence ≤ 1 ∧
    (match analyze_anomaly aW ctxW with
     | .ok r => 0 ≤ r.confidence ∧ r.confidence ≤ 1
     | .error _ => True) :=
  ⟨by norm_num [aW], by norm_num [aW],
   rule_engine_confidence_unit aW ctxW (by norm_num [aW]) (by norm_num [aW])⟩
